import Mathlib

/-!
Shallow embedding of the shared-message-ledger core of the SMSC simulator
(`smsc_simulator.py` and `http_server_80.py`).

The embedded parts are:
* the message record shape produced by `SMSHandler.process_sms`,
  `SMSHandler.add_message` and `SMSHandler.simulate_outgoing_message`
  (`smsc_simulator.py` lines 138-283);
* the per-process handler state (`message_counter`, `processed_messages`,
  `successful_messages`, `failed_messages`);
* the shared JSON store: its possible on-disk layouts and the read/write
  routines `SMSHandler._save_message_to_shared_file` (both files) and
  `SMSHandler.load_shared_messages`;
* the request-handler layer for the claims that mention HTTP outcomes
  (`_handle_sms_request`, `_handle_sms_request_port80`,
  `_handle_simulate_outgoing_request`, `_handle_clear_messages`,
  `_handle_messages_request`).

Timestamps are threaded in as explicit `String` arguments (`datetime.now()`
is external input); file I/O is modelled by passing the current store
content in and out, with a `writable` flag standing for whether the
open-for-write call succeeds (the Python code catches every exception from
the write path).
-/

namespace SMSC

/-- A ledger message record.  Python stores heterogeneous dicts; the union
of the keys produced by `process_sms`, `add_message` and
`simulate_outgoing_message` is modelled as one structure with `""` / `[]`
defaults for the keys a given producer does not set. -/
structure Msg where
  id : Nat
  msisdn : String := ""
  timestamp : String := ""
  status : String := ""
  source : String := ""
  format : String := ""
  raw_data : String := ""
  user_data : String := ""
  destination_address : String := ""
  protocol_identifier : String := ""
  data_coding_scheme : String := ""
  apdu_hex : String := ""
  query_params : List (String × List String) := []
  direction : String := ""
deriving DecidableEq, Repr

/-- The message record written by `http_server_80.py`'s
`_handle_sms_request` (lines 49-61): a string id `msg_<datetime>`, the
`submit` content, and the five presence booleans. -/
structure Msg80 where
  id : String
  timestamp : String
  content : String
  source : String
  p_submit : Bool
  p_ud : Bool
  p_da : Bool
  p_pid : Bool
  p_dcs : Bool
deriving DecidableEq, Repr

/-- Possible contents of `shared_messages.json`.
`bare` is the layout written by `smsc_simulator.py` (a JSON array of
records); `mapping` is the layout written by `http_server_80.py`
(`{"messages": [...], "total_count": n, "last_updated": ts}`);
`corrupt` is unparseable JSON; `absent` is a missing file. -/
inductive StoreContent where
  | absent
  | corrupt
  | bare (msgs : List Msg)
  | mapping (msgs : List Msg80) (total_count : Nat) (last_updated : String)
deriving DecidableEq, Repr

/-- State of one `SMSHandler` instance (`smsc_simulator.py` lines 131-136).
`start_time` is omitted: it only feeds the wall-clock uptime figures. -/
structure SMSHandlerState where
  message_counter : Nat
  processed_messages : List Msg
  successful_messages : Nat
  failed_messages : Nat
deriving DecidableEq, Repr

/-- `SMSHandler.__init__`. -/
def initState : SMSHandlerState :=
  { message_counter := 0, processed_messages := [], successful_messages := 0,
    failed_messages := 0 }

/-- Python `l[-n:]`: the last `n` elements (the whole list when
`l.length ≤ n`). -/
def lastN (n : Nat) (l : List α) : List α :=
  l.drop (l.length - n)

/-- `if len(messages) > 100: messages = messages[-100:]` — the cap step of
the shared-file writers and of `load_shared_messages`. -/
def capLast100 (l : List α) : List α :=
  if l.length > 100 then lastN 100 l else l

/-- `if len(self.processed_messages) > 100: self.processed_messages.pop(0)`
— the cap step after one in-memory append. -/
def popFrontIfOver100 (l : List α) : List α :=
  if l.length > 100 then l.drop 1 else l

/-- Fixed shared-store path (both files use `shared_messages.json`). -/
def shared_file : String := "shared_messages.json"

/-- `SMSHandler._save_message_to_shared_file` (`smsc_simulator.py`
lines 285-314).  Reads the file (missing or unparseable content degrades to
`[]`), appends the record, keeps the last 100, writes back a **bare JSON
list**.  When the current content is the `mapping` layout, `json.load`
yields a dict and `messages.append(...)` raises `AttributeError`, which the
outer `except` swallows: nothing is written.  `writable = false` models an
open-for-write failure (also swallowed): the store is left unchanged. -/
def save_message_to_shared_file (writable : Bool) (store : StoreContent)
    (m : Msg) : StoreContent :=
  match store with
  | .mapping l c ts => .mapping l c ts
  | .absent => if writable then .bare (capLast100 ([] ++ [m])) else .absent
  | .corrupt => if writable then .bare (capLast100 ([] ++ [m])) else .corrupt
  | .bare l => if writable then .bare (capLast100 (l ++ [m])) else .bare l

/-- `SMSHandler._save_message_to_shared_file` of `http_server_80.py`
(lines 81-116).  Reads the file expecting the **mapping** layout
(`data.get('messages', [])`), appends, keeps the last 100, writes back the
mapping layout with `total_count = len(messages)`.  On the bare-list layout
`data.get` raises `AttributeError`, which the inner
`except (JSONDecodeError, KeyError)` does **not** catch; the outer `except`
swallows it and nothing is written. -/
def http80_save_message_to_shared_file (store : StoreContent) (m : Msg80)
    (now : String) : StoreContent :=
  match store with
  | .absent => .mapping (capLast100 ([] ++ [m])) (capLast100 ([] ++ [m])).length now
  | .corrupt => .mapping (capLast100 ([] ++ [m])) (capLast100 ([] ++ [m])).length now
  | .mapping l _ _ =>
      .mapping (capLast100 (l ++ [m])) (capLast100 (l ++ [m])).length now
  | .bare l => .bare l

/-- `SMSHandler.load_shared_messages` (`smsc_simulator.py` lines 316-338):
the reconcile step.  On the bare layout it appends every store record whose
`id` is not already present locally (the dedup set is computed **once**,
before the loop) and then keeps the last 100.  A missing file is skipped;
unparseable content raises inside the `try` and is swallowed; the mapping
layout parses to a dict whose iteration yields string keys, so
`msg.get('id')` raises `AttributeError` before any append — in all three
cases the local view is unchanged. -/
def load_shared_messages (store : StoreContent) (processed : List Msg) :
    List Msg :=
  match store with
  | .absent => processed
  | .corrupt => processed
  | .mapping _ _ _ => processed
  | .bare shared =>
      let existing_ids := processed.map (fun m => m.id)
      let merged :=
        processed ++ shared.filter (fun m => !(existing_ids.contains m.id))
      capLast100 merged

/-- Response of `SMSHandler.process_sms` (the dict returned at line 175;
only the fields the claims mention). -/
structure ProcessSmsResponse where
  message_id : Nat
  status : String
  response_code : String
deriving DecidableEq, Repr

/-- `SMSHandler.process_sms` (`smsc_simulator.py` lines 138-175).
`apdu_raw` is `apdu_data.get('raw_data', '')` — `APDUParser.parse_hex_string`
always stores the raw input under `raw_data`, in both its success and
failure branches. -/
def process_sms (s : SMSHandlerState) (apdu_raw msisdn ts : String) :
    SMSHandlerState × ProcessSmsResponse :=
  let counter := s.message_counter + 1
  let response_code := "00"
  let m : Msg :=
    { id := counter, msisdn := msisdn, timestamp := ts,
      status := if response_code = "00" then "success" else "failed",
      apdu_hex := apdu_raw, direction := "received" }
  let s' : SMSHandlerState :=
    { message_counter := counter,
      processed_messages := popFrontIfOver100 (s.processed_messages ++ [m]),
      successful_messages :=
        if response_code = "00" then s.successful_messages + 1
        else s.successful_messages,
      failed_messages :=
        if response_code = "00" then s.failed_messages
        else s.failed_messages + 1 }
  (s', { message_id := counter, status := "received",
         response_code := response_code })

/-- The normalized submission handed to `add_message` (the `sms_data` dict
built by the callers, after the `.get(..., default)` lookups inside
`add_message` lines 223-236). -/
structure SmsData where
  timestamp : String := ""
  source : String := "http"
  format : String := "unknown"
  raw_data : String := ""
  user_data : String := ""
  destination_address : String := ""
  protocol_identifier : String := ""
  data_coding_scheme : String := ""
  query_params : List (String × List String) := []
deriving DecidableEq, Repr

/-- `SMSHandler.add_message` (`smsc_simulator.py` lines 218-250): appends a
standardized `status = 'success'`, `direction = 'received'` record, bumps
the counters, caps the view, then attempts the shared-file write (whose
failure is swallowed).  Returns the new state, the new store content and
the created record. -/
def add_message (writable : Bool) (s : SMSHandlerState) (store : StoreContent)
    (d : SmsData) : SMSHandlerState × StoreContent × Msg :=
  let counter := s.message_counter + 1
  let m : Msg :=
    { id := counter, timestamp := d.timestamp, status := "success",
      source := d.source, format := d.format, raw_data := d.raw_data,
      user_data := d.user_data,
      destination_address := d.destination_address,
      protocol_identifier := d.protocol_identifier,
      data_coding_scheme := d.data_coding_scheme,
      query_params := d.query_params, direction := "received" }
  let s' : SMSHandlerState :=
    { message_counter := counter,
      processed_messages := popFrontIfOver100 (s.processed_messages ++ [m]),
      successful_messages := s.successful_messages + 1,
      failed_messages := s.failed_messages }
  (s', save_message_to_shared_file writable store m, m)

/-- `SMSHandler.simulate_outgoing_message` (`smsc_simulator.py`
lines 252-283). -/
def simulate_outgoing_message (writable : Bool) (s : SMSHandlerState)
    (store : StoreContent) (destination_msisdn message_text ts : String) :
    SMSHandlerState × StoreContent × Msg :=
  let counter := s.message_counter + 1
  let m : Msg :=
    { id := counter, timestamp := ts, status := "success",
      source := "simulator", format := "outgoing_simulation",
      raw_data := "SIMULATED_OUTGOING_" ++ toString counter,
      user_data := message_text,
      destination_address := destination_msisdn,
      protocol_identifier := "00", data_coding_scheme := "00",
      query_params := [], direction := "sent" }
  let s' : SMSHandlerState :=
    { message_counter := counter,
      processed_messages := popFrontIfOver100 (s.processed_messages ++ [m]),
      successful_messages := s.successful_messages + 1,
      failed_messages := s.failed_messages }
  (s', save_message_to_shared_file writable store m, m)

/-- `SMSHandler.clear_messages` (`smsc_simulator.py` lines 201-207): clears
the local list and zeroes all three counters.  The shared file is not
touched. -/
def clear_messages (_s : SMSHandlerState) : SMSHandlerState :=
  { message_counter := 0, processed_messages := [],
    successful_messages := 0, failed_messages := 0 }

/-- `SMSHandler.reset_statistics` (`smsc_simulator.py` lines 209-216): same
state change as `clear_messages` (plus a `start_time` reset, unmodelled). -/
def reset_statistics (_s : SMSHandlerState) : SMSHandlerState :=
  { message_counter := 0, processed_messages := [],
    successful_messages := 0, failed_messages := 0 }

/-- The counter part of `SMSHandler.get_statistics` (`smsc_simulator.py`
lines 177-199).  The wall-clock fields (`uptime_seconds`,
`messages_per_minute`, `start_time`) are omitted; `total_messages` is the
`message_counter`, not the view length. -/
structure Statistics where
  total_messages : Nat
  successful_messages : Nat
  failed_messages : Nat
  last_processed : Option Msg
deriving DecidableEq, Repr

/-- `SMSHandler.get_statistics`, counter fields. -/
def get_statistics (s : SMSHandlerState) : Statistics :=
  { total_messages := s.message_counter,
    successful_messages := s.successful_messages,
    failed_messages := s.failed_messages,
    last_processed := s.processed_messages.getLast? }

/-! ## Request-handler layer (the endpoints the claims mention) -/

/-- Outcome of a request handler toward the HTTP client: a 200 JSON
success response, or `_send_error_response` with the given status code. -/
inductive HandlerOutcome where
  | success
  | error (code : Nat)
deriving DecidableEq, Repr

/-- `SMSCRequestHandler._handle_sms_request` (`smsc_simulator.py`
lines 385-407): `submit` non-empty → parse + `process_sms` + 200; empty →
400 "Missing submit parameter" and no state change. -/
def handle_sms_request (s : SMSHandlerState) (submit_data msisdn ts : String) :
    HandlerOutcome × SMSHandlerState :=
  if submit_data ≠ "" then
    let (s', _) := process_sms s submit_data msisdn ts
    (.success, s')
  else
    (.error 400, s)

/-- `SMSCRequestHandler._handle_sms_request_port80` (`smsc_simulator.py`
lines 893-963).  The five recognized fields arrive already extracted from
the query string (with `''` defaults); `sms_submit` is
`unquote(submit_data) if submit_data else ''` — `unquote` maps `''` to `''`
and non-empty to non-empty, so truthiness is preserved and the decoded
value is what reaches the stored record.  If all five are empty the handler
answers 400 "Missing SMS parameters" and stores nothing; otherwise it
builds `sms_data`, calls `add_message` and answers 200. -/
def handle_sms_request_port80 (writable : Bool) (s : SMSHandlerState)
    (store : StoreContent)
    (sms_submit sms_submit_ud sms_submit_da sms_submit_pid sms_submit_dcs : String)
    (query_params : List (String × List String)) (now : String) :
    HandlerOutcome × SMSHandlerState × StoreContent :=
  if sms_submit = "" ∧ sms_submit_ud = "" ∧ sms_submit_da = "" ∧
      sms_submit_pid = "" ∧ sms_submit_dcs = "" then
    (.error 400, s, store)
  else
    let sms_data : SmsData :=
      { raw_data := sms_submit, user_data := sms_submit_ud,
        destination_address := sms_submit_da,
        protocol_identifier := sms_submit_pid,
        data_coding_scheme := sms_submit_dcs,
        timestamp := now, source := "port_80_simulation",
        format := "sms_submit_variables", query_params := query_params }
    let (s', store', _) := add_message writable s store sms_data
    (.success, s', store')

/-- `SMSCRequestHandler._handle_simulate_outgoing_request`
(`smsc_simulator.py` lines 863-891): unconditionally calls
`simulate_outgoing_message` and answers 200 (store-write failures are
swallowed inside the save routine). -/
def handle_simulate_outgoing_request (writable : Bool) (s : SMSHandlerState)
    (store : StoreContent) (destination message_text ts : String) :
    HandlerOutcome × SMSHandlerState × StoreContent :=
  let (s', store', _) :=
    simulate_outgoing_message writable s store destination message_text ts
  (.success, s', store')

/-- `SMSCRequestHandler._handle_clear_messages` (`smsc_simulator.py`
lines 965-981): calls `clear_messages` and answers 200. -/
def handle_clear_messages (s : SMSHandlerState) :
    HandlerOutcome × SMSHandlerState :=
  (.success, clear_messages s)

/-- `SMSCRequestHandler._handle_messages_request` (`smsc_simulator.py`
lines 851-861): first reconciles via `load_shared_messages`, then returns
the (updated) `processed_messages` list as the response body. -/
def handle_messages_request (s : SMSHandlerState) (store : StoreContent) :
    List Msg × SMSHandlerState :=
  let pm := load_shared_messages store s.processed_messages
  (pm, { s with processed_messages := pm })

/-! ## Operation sequences

`Op` covers everything that can touch one handler's state or the shared
store during a run, including a reconcile and a write performed by a
sibling process.  `LocalOp` (used by the implicit-invariant claim) is the
ingestion-only fragment: no reconcile, no sibling writes.  `AppendOp` is
the append-only fragment used by the cap-invariant claim. -/

/-- One step of a handler process: the three ingestion paths, the two
reset paths, a reconcile, and a shared-store overwrite by a sibling
process. -/
inductive Op where
  | processSms (raw msisdn ts : String)
  | addMessage (writable : Bool) (d : SmsData)
  | simulateOutgoing (writable : Bool) (dest text ts : String)
  | clearMessages
  | resetStatistics
  | loadShared
  | siblingWrite (c : StoreContent)
deriving Repr

/-- Effect of one `Op` on the handler state and the shared store. -/
def step (w : SMSHandlerState × StoreContent) (op : Op) :
    SMSHandlerState × StoreContent :=
  match op with
  | .processSms raw msisdn ts => ((process_sms w.1 raw msisdn ts).1, w.2)
  | .addMessage writable d =>
      let (s', store', _) := add_message writable w.1 w.2 d
      (s', store')
  | .simulateOutgoing writable dest text ts =>
      let (s', store', _) := simulate_outgoing_message writable w.1 w.2 dest text ts
      (s', store')
  | .clearMessages => (clear_messages w.1, w.2)
  | .resetStatistics => (reset_statistics w.1, w.2)
  | .loadShared =>
      ({ w.1 with processed_messages := load_shared_messages w.2 w.1.processed_messages }, w.2)
  | .siblingWrite c => (w.1, c)

/-- Run a sequence of operations from a starting world. -/
def run (w : SMSHandlerState × StoreContent) (ops : List Op) :
    SMSHandlerState × StoreContent :=
  ops.foldl step w

/-- The ingestion-only operations (no reconcile, no sibling writes). -/
inductive LocalOp where
  | processSms (raw msisdn ts : String)
  | addMessage (writable : Bool) (d : SmsData)
  | simulateOutgoing (writable : Bool) (dest text ts : String)
  | clearMessages
  | resetStatistics
deriving Repr

/-- Effect of one `LocalOp`. -/
def stepLocal (w : SMSHandlerState × StoreContent) (op : LocalOp) :
    SMSHandlerState × StoreContent :=
  match op with
  | .processSms raw msisdn ts => ((process_sms w.1 raw msisdn ts).1, w.2)
  | .addMessage writable d =>
      let (s', store', _) := add_message writable w.1 w.2 d
      (s', store')
  | .simulateOutgoing writable dest text ts =>
      let (s', store', _) := simulate_outgoing_message writable w.1 w.2 dest text ts
      (s', store')
  | .clearMessages => (clear_messages w.1, w.2)
  | .resetStatistics => (reset_statistics w.1, w.2)

/-- Run a sequence of ingestion-only operations. -/
def runLocal (w : SMSHandlerState × StoreContent) (ops : List LocalOp) :
    SMSHandlerState × StoreContent :=
  ops.foldl stepLocal w

/-- The three append operations (the ones that create a record). -/
inductive AppendOp where
  | processSms (raw msisdn ts : String)
  | addMessage (writable : Bool) (d : SmsData)
  | simulateOutgoing (writable : Bool) (dest text ts : String)
deriving Repr

/-- Effect of one `AppendOp`. -/
def stepAppend (w : SMSHandlerState × StoreContent) (op : AppendOp) :
    SMSHandlerState × StoreContent :=
  match op with
  | .processSms raw msisdn ts => ((process_sms w.1 raw msisdn ts).1, w.2)
  | .addMessage writable d =>
      let (s', store', _) := add_message writable w.1 w.2 d
      (s', store')
  | .simulateOutgoing writable dest text ts =>
      let (s', store', _) := simulate_outgoing_message writable w.1 w.2 dest text ts
      (s', store')

/-- Run a sequence of append operations. -/
def runAppend (w : SMSHandlerState × StoreContent) (ops : List AppendOp) :
    SMSHandlerState × StoreContent :=
  ops.foldl stepAppend w

/-- The record an `AppendOp` creates when the handler's `message_counter`
was `n` before the call (so the record gets id `n + 1`) — read off from the
`message_data` dicts of `process_sms`, `add_message` and
`simulate_outgoing_message`. -/
def mkRecord (n : Nat) (op : AppendOp) : Msg :=
  match op with
  | .processSms raw msisdn ts =>
      { id := n + 1, msisdn := msisdn, timestamp := ts,
        status := if ("00" : String) = "00" then "success" else "failed",
        apdu_hex := raw, direction := "received" }
  | .addMessage _ d =>
      { id := n + 1, timestamp := d.timestamp, status := "success",
        source := d.source, format := d.format, raw_data := d.raw_data,
        user_data := d.user_data,
        destination_address := d.destination_address,
        protocol_identifier := d.protocol_identifier,
        data_coding_scheme := d.data_coding_scheme,
        query_params := d.query_params, direction := "received" }
  | .simulateOutgoing _ dest text ts =>
      { id := n + 1, timestamp := ts, status := "success",
        source := "simulator", format := "outgoing_simulation",
        raw_data := "SIMULATED_OUTGOING_" ++ toString (n + 1),
        user_data := text, destination_address := dest,
        protocol_identifier := "00", data_coding_scheme := "00",
        query_params := [], direction := "sent" }

/-- The full insertion history of a run of append operations starting at
counter value `n`: the records created, in insertion order. -/
def history (n : Nat) : List AppendOp → List Msg
  | [] => []
  | op :: rest => mkRecord n op :: history (n + 1) rest

/-! ## File-system effect traces of the shared-store write paths

For the atomic-rewrite claim the relevant facts are *which* file-system
operations the write paths perform, in order.  `FsOp` lists the operations
the claim talks about; the traces below transcribe the I/O calls of the two
`_save_message_to_shared_file` routines. -/

/-- A file-system operation relevant to the atomic-rewrite discipline. -/
inductive FsOp where
  | readFile (path : String)
  | writeInPlace (path : String)
  | writeTemp (path : String)
  | renameFile (src dst : String)
  | lockAcquire (path : String)
  | lockRelease (path : String)
deriving DecidableEq, Repr

/-- I/O trace of `SMSHandler._save_message_to_shared_file`
(`smsc_simulator.py` lines 285-314): an optional read of
`shared_messages.json`, then `open(shared_file, 'w')` — a direct in-place
write of the same path.  On the mapping layout the `AttributeError` aborts
before the write. -/
def smsc_save_trace (store : StoreContent) : List FsOp :=
  match store with
  | .absent => [.writeInPlace shared_file]
  | .corrupt => [.readFile shared_file, .writeInPlace shared_file]
  | .bare _ => [.readFile shared_file, .writeInPlace shared_file]
  | .mapping _ _ _ => [.readFile shared_file]

/-- I/O trace of `SMSHandler._save_message_to_shared_file`
(`http_server_80.py` lines 81-116): same shape; on the bare layout the
`AttributeError` aborts before the write. -/
def http80_save_trace (store : StoreContent) : List FsOp :=
  match store with
  | .absent => [.writeInPlace shared_file]
  | .corrupt => [.readFile shared_file, .writeInPlace shared_file]
  | .mapping _ _ _ => [.readFile shared_file, .writeInPlace shared_file]
  | .bare _ => [.readFile shared_file]

/-- Is this operation a direct in-place write of path `p`? -/
def isWriteInPlaceTo (p : String) : FsOp → Bool
  | .writeInPlace q => q == p
  | _ => false

/-- Is this operation a write to a temporary location? -/
def isWriteTemp : FsOp → Bool
  | .writeTemp _ => true
  | _ => false

/-- Is this operation a rename/swap? -/
def isRenameFile : FsOp → Bool
  | .renameFile _ _ => true
  | _ => false

/-- Is this operation a lock acquisition? -/
def isLockAcquire : FsOp → Bool
  | .lockAcquire _ => true
  | _ => false

/-- The discipline the claim describes for a rewrite of path `p`: either
the new content is produced at a temporary location and renamed into place
(and `p` is never written in place), or the write is guarded by mutual
exclusion. -/
def atomicOrGuarded (t : List FsOp) (p : String) : Prop :=
  (t.all (fun op => !(isWriteInPlaceTo p op)) = true ∧
    t.any isWriteTemp = true ∧ t.any isRenameFile = true) ∨
  t.any isLockAcquire = true

/-- A record with the given id and every other field defaulted — used for
concrete instances. -/
def idMsg (n : Nat) : Msg := { id := n }

/-- A concrete `http_server_80.py` record, for concrete instances. -/
def sampleMsg80 : Msg80 :=
  { id := "msg_20240101_000000_000000", timestamp := "t0", content := "AB",
    source := "http_port_80", p_submit := true, p_ud := false, p_da := false,
    p_pid := false, p_dcs := false }

/-- A concrete normalized submission, for concrete instances. -/
def sampleSmsData : SmsData :=
  { timestamp := "t0", source := "port_80_simulation",
    format := "sms_submit_variables", raw_data := "AB", user_data := "",
    destination_address := "", protocol_identifier := "",
    data_coding_scheme := "", query_params := [("submit", ["AB"])] }

/-! ## Helper lemmas about the capping operations -/

theorem lastN_of_length_le {n : Nat} {l : List α} (h : l.length ≤ n) :
    lastN n l = l := by
  simp [lastN, Nat.sub_eq_zero_of_le h]

theorem capLast100_of_length_le {l : List α} (h : l.length ≤ 100) :
    capLast100 l = l := by
  unfold capLast100
  rw [if_neg]
  omega

theorem length_lastN (n : Nat) (l : List α) :
    (lastN n l).length = min l.length n := by
  simp [lastN]
  omega

theorem append_single_drop (H : List α) (m : α) {k : Nat} (hk : k ≤ H.length) :
    (H ++ [m]).drop k = H.drop k ++ [m] := by
  rw [List.drop_append_eq_append_drop, Nat.sub_eq_zero_of_le hk, List.drop_zero]

/-- Appending one element to a view that is the last-100 window of a
history `H`, then popping the front if over the cap, is the last-100
window of `H ++ [m]`. -/
theorem popFrontIfOver100_lastN_append (H : List α) (m : α) :
    popFrontIfOver100 (lastN 100 H ++ [m]) = lastN 100 (H ++ [m]) := by
  have h1 : lastN 100 H ++ [m] = (H ++ [m]).drop (H.length - 100) :=
    (append_single_drop H m (Nat.sub_le _ _)).symm
  rw [h1]
  rcases Nat.lt_or_ge H.length 100 with h | h
  · have e0 : H.length - 100 = 0 := by omega
    have hc : ¬ ((H ++ [m]).length > 100) := by
      simp only [List.length_append, List.length_cons, List.length_nil]
      omega
    rw [e0, List.drop_zero, popFrontIfOver100, if_neg hc, lastN,
      Nat.sub_eq_zero_of_le (by simpa using by omega), List.drop_zero]
  · have hlen : ((H ++ [m]).drop (H.length - 100)).length = 101 := by
      simp only [List.length_drop, List.length_append, List.length_cons,
        List.length_nil]
      omega
    rw [popFrontIfOver100, if_pos (by rw [hlen]; omega), List.drop_drop, lastN]
    congr 1
    simp only [List.length_append, List.length_cons, List.length_nil]
    omega

/-- The just-appended record survives the pop-front cap step. -/
theorem self_mem_popFrontIfOver100_append (l : List α) (m : α) :
    m ∈ popFrontIfOver100 (l ++ [m]) := by
  unfold popFrontIfOver100
  split
  · next h =>
    have hl : 1 ≤ l.length := by
      simp only [List.length_append, List.length_cons, List.length_nil] at h
      omega
    rw [List.drop_append_eq_append_drop, Nat.sub_eq_zero_of_le hl,
      List.drop_zero]
    simp
  · simp

theorem popFrontIfOver100_subset (l : List α) : popFrontIfOver100 l ⊆ l := by
  unfold popFrontIfOver100
  split
  · exact List.drop_subset _ _
  · exact fun x hx => hx

/-! ## The append-only run: the view is the last-100 window of the
insertion history -/

theorem stepAppend_spec (w : SMSHandlerState × StoreContent) (op : AppendOp) :
    (stepAppend w op).1.processed_messages
        = popFrontIfOver100
            (w.1.processed_messages ++ [mkRecord w.1.message_counter op]) ∧
    (stepAppend w op).1.message_counter = w.1.message_counter + 1 := by
  cases op <;>
    simp [stepAppend, process_sms, add_message, simulate_outgoing_message,
      mkRecord]

theorem length_history (n : Nat) (ops : List AppendOp) :
    (history n ops).length = ops.length := by
  induction ops generalizing n with
  | nil => rfl
  | cons op rest ih => simp [history, ih]

theorem map_id_history (n : Nat) (ops : List AppendOp) :
    (history n ops).map Msg.id = List.range' (n + 1) ops.length := by
  induction ops generalizing n with
  | nil => rfl
  | cons op rest ih =>
    have hid : (mkRecord n op).id = n + 1 := by cases op <;> rfl
    simp [history, List.range'_succ, hid, ih]

theorem runAppend_invariant (ops : List AppendOp) :
    ∀ (w : SMSHandlerState × StoreContent) (H : List Msg),
      w.1.message_counter = H.length →
      w.1.processed_messages = lastN 100 H →
      (runAppend w ops).1.processed_messages
          = lastN 100 (H ++ history H.length ops) ∧
      (runAppend w ops).1.message_counter = H.length + ops.length := by
  induction ops with
  | nil =>
    intro w H hc hp
    simpa [runAppend, history] using ⟨hp, hc⟩
  | cons op rest ih =>
    intro w H hc hp
    have h1 : runAppend w (op :: rest) = runAppend (stepAppend w op) rest := rfl
    have hs := stepAppend_spec w op
    have hc' : (stepAppend w op).1.message_counter
        = (H ++ [mkRecord H.length op]).length := by
      rw [hs.2, hc]
      simp
    have hp' : (stepAppend w op).1.processed_messages
        = lastN 100 (H ++ [mkRecord H.length op]) := by
      rw [hs.1, hp, hc, popFrontIfOver100_lastN_append]
    have hrest := ih (stepAppend w op) (H ++ [mkRecord H.length op]) hc' hp'
    rw [h1]
    refine ⟨?_, ?_⟩
    · rw [hrest.1, List.append_assoc]
      congr 2
      simp [history]
    · rw [hrest.2]
      simp [history]
      omega

theorem runAppend_from_init (ops : List AppendOp) (store : StoreContent) :
    (runAppend (initState, store) ops).1.processed_messages
      = lastN 100 (history 0 ops) := by
  simpa using
    (runAppend_invariant ops (initState, store) [] rfl
      (by simp [initState, lastN])).1

/-! ## Counter-sum invariant over arbitrary runs -/

theorem step_sum_invariant (w : SMSHandlerState × StoreContent) (op : Op)
    (h : w.1.successful_messages + w.1.failed_messages = w.1.message_counter) :
    (step w op).1.successful_messages + (step w op).1.failed_messages
      = (step w op).1.message_counter := by
  cases op <;>
    simp [step, process_sms, add_message, simulate_outgoing_message,
      clear_messages, reset_statistics] <;>
    omega

theorem run_sum_invariant (ops : List Op) :
    ∀ w : SMSHandlerState × StoreContent,
      w.1.successful_messages + w.1.failed_messages = w.1.message_counter →
      (run w ops).1.successful_messages + (run w ops).1.failed_messages
        = (run w ops).1.message_counter := by
  induction ops with
  | nil => intro w h; exact h
  | cons op rest ih =>
    intro w h
    exact ih (step w op) (step_sum_invariant w op h)

/-! ## Success-only invariant over ingestion-only runs -/

theorem stepLocal_success_invariant (w : SMSHandlerState × StoreContent)
    (op : LocalOp) (h1 : w.1.failed_messages = 0)
    (h2 : ∀ m ∈ w.1.processed_messages, m.status = "success") :
    (stepLocal w op).1.failed_messages = 0 ∧
      ∀ m ∈ (stepLocal w op).1.processed_messages, m.status = "success" := by
  cases op with
  | processSms raw msisdn ts =>
    refine ⟨by simp [stepLocal, process_sms, h1], ?_⟩
    intro m hm
    simp only [stepLocal, process_sms] at hm
    rcases List.mem_append.1 (popFrontIfOver100_subset _ hm) with h | h
    · exact h2 m h
    · simp only [List.mem_singleton] at h
      rw [h]
      simp
  | addMessage writable d =>
    refine ⟨by simp [stepLocal, add_message, h1], ?_⟩
    intro m hm
    simp only [stepLocal, add_message] at hm
    rcases List.mem_append.1 (popFrontIfOver100_subset _ hm) with h | h
    · exact h2 m h
    · simp only [List.mem_singleton] at h
      rw [h]
  | simulateOutgoing writable dest text ts =>
    refine ⟨by simp [stepLocal, simulate_outgoing_message, h1], ?_⟩
    intro m hm
    simp only [stepLocal, simulate_outgoing_message] at hm
    rcases List.mem_append.1 (popFrontIfOver100_subset _ hm) with h | h
    · exact h2 m h
    · simp only [List.mem_singleton] at h
      rw [h]
  | clearMessages => exact ⟨rfl, by simp [stepLocal, clear_messages]⟩
  | resetStatistics => exact ⟨rfl, by simp [stepLocal, reset_statistics]⟩

theorem runLocal_success_invariant (ops : List LocalOp) :
    ∀ w : SMSHandlerState × StoreContent,
      w.1.failed_messages = 0 →
      (∀ m ∈ w.1.processed_messages, m.status = "success") →
      (runLocal w ops).1.failed_messages = 0 ∧
        ∀ m ∈ (runLocal w ops).1.processed_messages, m.status = "success" := by
  induction ops with
  | nil => intro w h1 h2; exact ⟨h1, h2⟩
  | cons op rest ih =>
    intro w h1 h2
    have h := stepLocal_success_invariant w op h1 h2
    exact ih (stepLocal w op) h.1 h.2

/-- A failed shared-store write leaves the store unchanged (the Python
write path catches every exception). -/
theorem save_message_to_shared_file_false (store : StoreContent) (m : Msg) :
    save_message_to_shared_file false store m = store := by
  cases store <;> rfl

/-! ## Claim theorems -/

/-- C1 (counterexample): the statistics counters do **not** always equal a
full scan of the reconciled view.  From a fresh handler, one reconcile
against a store holding a sibling-written record yields a view of length 1
while `get_statistics` still reports `total_messages = 0` (and
`successful = failed = 0`): the counters are not updated by
`load_shared_messages`, so `total` differs from the length of the
reconciled ledger. -/
theorem C1_counterexample :
    (run (initState, StoreContent.bare [idMsg 1])
        [Op.loadShared]).1.processed_messages.length = 1 ∧
    (get_statistics (run (initState, StoreContent.bare [idMsg 1])
        [Op.loadShared]).1).total_messages = 0 ∧
    (get_statistics (run (initState, StoreContent.bare [idMsg 1])
        [Op.loadShared]).1).successful_messages = 0 ∧
    (get_statistics (run (initState, StoreContent.bare [idMsg 1])
        [Op.loadShared]).1).failed_messages = 0 :=
  ⟨rfl, rfl, rfl, rfl⟩

/-- C1 (amended): the incrementally maintained counters never drift from
each other — for every state reachable by any sequence of operations
(ingestion, clears/resets, reconciles, sibling store writes) from a fresh
handler and an arbitrary initial store, `get_statistics` satisfies
`successful_messages + failed_messages = total_messages`.  (`total_messages`
is the ingestion counter, which can differ from the length of the
reconciled view — see the counterexample.) -/
theorem C1_stats_counter_sum (store : StoreContent) (ops : List Op) :
    (get_statistics (run (initState, store) ops).1).successful_messages
      + (get_statistics (run (initState, store) ops).1).failed_messages
      = (get_statistics (run (initState, store) ops).1).total_messages := by
  simpa [get_statistics] using run_sum_invariant ops (initState, store) rfl

/-- C2: cap invariant.  For every sequence of append operations from a
fresh handler, the view is exactly the last-100 window of the insertion
history (oldest evicted first, never a middle record), its length is
`min N 100`, the history carries ids `1..N` in insertion order — and in
particular appending 101 records with ids 1..101 leaves exactly
ids 2..101. -/
theorem C2_cap_invariant (ops : List AppendOp) (store : StoreContent) :
    (runAppend (initState, store) ops).1.processed_messages
        = lastN 100 (history 0 ops) ∧
    (runAppend (initState, store) ops).1.processed_messages.length
        = min ops.length 100 ∧
    (history 0 ops).map Msg.id = List.range' 1 ops.length ∧
    ((runAppend (initState, StoreContent.absent)
          (List.replicate 101 (AppendOp.processSms "" "" ""))).1.processed_messages.map
        Msg.id = List.range' 2 100) := by
  refine ⟨runAppend_from_init ops store, ?_, by simpa using map_id_history 0 ops, ?_⟩
  · rw [runAppend_from_init ops store, length_lastN, length_history]
  · rw [runAppend_from_init, lastN, List.map_drop, map_id_history,
      length_history]
    simp only [List.length_replicate, List.length_map]
    decide

/-- C3 (counterexample): the two listeners do **not** share one
serialization layout.  From an empty store, `http_server_80.py`'s write
routine persists a record inside a mapping with a `messages` key; the
`smsc_simulator.py` reader then parses back **no** record (the local view
stays empty), and the `smsc_simulator.py` writer cannot even append to that
store (it is left unchanged).  Symmetrically, `http_server_80.py`'s writer
leaves a bare-sequence store (written by `smsc_simulator.py`) unchanged. -/
theorem C3_counterexample :
    http80_save_message_to_shared_file StoreContent.absent sampleMsg80 "t1"
        = StoreContent.mapping [sampleMsg80] 1 "t1" ∧
    load_shared_messages
        (http80_save_message_to_shared_file StoreContent.absent sampleMsg80 "t1")
        [] = [] ∧
    save_message_to_shared_file true
        (http80_save_message_to_shared_file StoreContent.absent sampleMsg80 "t1")
        (idMsg 1) = StoreContent.mapping [sampleMsg80] 1 "t1" ∧
    http80_save_message_to_shared_file (StoreContent.bare [idMsg 1])
        sampleMsg80 "t1" = StoreContent.bare [idMsg 1] :=
  ⟨rfl, rfl, rfl, rfl⟩

/-- C3 (amended): each component is *internally* consistent with its own
layout — `smsc_simulator.py`'s writer emits the bare-sequence layout, which
its own reader parses back (round trip), and `http_server_80.py`'s writer
reads and re-emits the mapping layout — but the layouts differ between the
two components, and each side treats the other side's layout as
unusable: `smsc_simulator.py` neither reads nor extends a mapping store,
and `http_server_80.py` does not extend a bare store (in both cases the
failure is swallowed, not fatal). -/
theorem C3_per_component_layout :
    (∀ m : Msg,
      load_shared_messages
        (save_message_to_shared_file true StoreContent.absent m) [] = [m]) ∧
    (∀ (l : List Msg) (m : Msg),
      save_message_to_shared_file true (StoreContent.bare l) m
        = StoreContent.bare (capLast100 (l ++ [m]))) ∧
    (∀ (l : List Msg80) (c : Nat) (ts : String) (m : Msg80) (now : String),
      http80_save_message_to_shared_file (StoreContent.mapping l c ts) m now
        = StoreContent.mapping (capLast100 (l ++ [m]))
            (capLast100 (l ++ [m])).length now) ∧
    (∀ (l : List Msg80) (c : Nat) (ts : String) (pm : List Msg),
      load_shared_messages (StoreContent.mapping l c ts) pm = pm) ∧
    (∀ (l : List Msg80) (c : Nat) (ts : String) (m : Msg),
      save_message_to_shared_file true (StoreContent.mapping l c ts) m
        = StoreContent.mapping l c ts) ∧
    (∀ (l : List Msg) (m : Msg80) (now : String),
      http80_save_message_to_shared_file (StoreContent.bare l) m now
        = StoreContent.bare l) :=
  ⟨fun _ => rfl, fun _ _ => rfl, fun _ _ _ _ _ => rfl, fun _ _ _ _ => rfl,
    fun _ _ _ _ => rfl, fun _ _ _ => rfl⟩

set_option maxRecDepth 100000 in
/-- C4 (counterexample): reconciliation is **not** idempotent when the
merged result exceeds the cap.  With a full local view of ids 1..100 and a
store holding records with ids 1 and 101, the first reconcile imports
id 101 and evicts the id-1 record (view becomes 2..101); a second
reconcile, with no store write in between, re-imports the store's id-1
record (view becomes 3..101,1). -/
theorem C4_counterexample :
    load_shared_messages (StoreContent.bare [idMsg 1, idMsg 101])
        (load_shared_messages (StoreContent.bare [idMsg 1, idMsg 101])
          ((List.range' 1 100).map idMsg))
      ≠ load_shared_messages (StoreContent.bare [idMsg 1, idMsg 101])
          ((List.range' 1 100).map idMsg) := by
  decide

/-- C4 (amended): reconciliation is idempotent provided the first merge
does not exceed the cap of 100 (so no truncation occurs); on an absent,
corrupt or mapping-layout store, reconciliation is unconditionally a
no-op (hence idempotent). -/
theorem C4_reconcile_idempotent (shared pm : List Msg)
    (h : (pm ++ shared.filter
        (fun m => !((pm.map (fun x => x.id)).contains m.id))).length ≤ 100) :
    load_shared_messages (StoreContent.bare shared)
        (load_shared_messages (StoreContent.bare shared) pm)
      = load_shared_messages (StoreContent.bare shared) pm ∧
    (∀ q : List Msg, load_shared_messages StoreContent.absent q = q) ∧
    (∀ q : List Msg, load_shared_messages StoreContent.corrupt q = q) ∧
    (∀ (l : List Msg80) (c : Nat) (ts : String) (q : List Msg),
      load_shared_messages (StoreContent.mapping l c ts) q = q) := by
  refine ⟨?_, fun _ => rfl, fun _ => rfl, fun _ _ _ _ => rfl⟩
  have h1 : load_shared_messages (StoreContent.bare shared) pm
      = pm ++ shared.filter
          (fun m => !((pm.map (fun x => x.id)).contains m.id)) := by
    simp only [load_shared_messages]
    exact capLast100_of_length_le h
  rw [h1]
  set F := shared.filter
      (fun m => !((pm.map (fun x => x.id)).contains m.id)) with hF
  have h2 : shared.filter
      (fun m => !(((pm ++ F).map (fun x => x.id)).contains m.id)) = [] := by
    rw [List.filter_eq_nil_iff]
    intro m hm
    have hcontains : ((pm ++ F).map (fun x => x.id)).contains m.id = true := by
      by_cases hc : (pm.map (fun x => x.id)).contains m.id = true
      · have : m.id ∈ (pm ++ F).map (fun x => x.id) := by
          rw [List.map_append]
          exact List.mem_append.2 (Or.inl (by simpa [List.contains] using hc))
        simpa [List.contains] using this
      · have hmF : m ∈ F := by
          rw [hF, List.mem_filter]
          refine ⟨hm, ?_⟩
          revert hc
          cases (pm.map (fun x => x.id)).contains m.id <;> simp
        have : m.id ∈ (pm ++ F).map (fun x => x.id) := by
          rw [List.map_append]
          exact List.mem_append.2 (Or.inr (List.mem_map.2 ⟨m, hmF, rfl⟩))
        simpa [List.contains] using this
    show ¬ ((!((pm ++ F).map (fun x => x.id)).contains m.id) = true)
    rw [hcontains]
    simp
  simp only [load_shared_messages, h2, List.append_nil]
  exact capLast100_of_length_le h

/-- C4 witness: a concrete in-cap instance where applying reconcile twice
equals applying it once. -/
theorem C4_reconcile_idempotent_witness :
    load_shared_messages (StoreContent.bare [idMsg 1, idMsg 2])
        (load_shared_messages (StoreContent.bare [idMsg 1, idMsg 2]) [idMsg 1])
      = load_shared_messages (StoreContent.bare [idMsg 1, idMsg 2]) [idMsg 1] :=
  (C4_reconcile_idempotent [idMsg 1, idMsg 2] [idMsg 1] (by decide)).1

set_option maxRecDepth 100000 in
/-- C5 (counterexample): with a full local view (100 records, exactly one
of them with id 1000) and a store holding a record with id 1000 plus 100
records with fresh ids, the merged result overflows the cap and the id-1000
record is evicted: the merged view contains **zero** records with id 1000,
not exactly one. -/
theorem C5_counterexample :
    (((idMsg 1000 :: (List.range' 1 99).map idMsg).map Msg.id).count 1000
        = 1) ∧
    (((idMsg 1000 :: (List.range' 200 100).map idMsg).map Msg.id).count 1000
        = 1) ∧
    (((load_shared_messages
          (StoreContent.bare (idMsg 1000 :: (List.range' 200 100).map idMsg))
          (idMsg 1000 :: (List.range' 1 99).map idMsg)).map Msg.id).count 1000
        = 0) := by
  decide

/-- C5 (amended): if the local view contains exactly one record with id `X`,
the store also contains a record with id `X`, and the merged result does
not exceed the cap of 100 (no truncation), then the reconciled view is the
existing local order followed by the newly discovered store records in
store order, and it contains exactly one record with id `X`. -/
theorem C5_dedup_merge (shared pm : List Msg) (X : Nat)
    (hlocal : (pm.map Msg.id).count X = 1)
    (hstore : X ∈ shared.map Msg.id)
    (hlen : (pm ++ shared.filter
        (fun m => !((pm.map (fun x => x.id)).contains m.id))).length ≤ 100) :
    load_shared_messages (StoreContent.bare shared) pm
        = pm ++ shared.filter
            (fun m => !((pm.map (fun x => x.id)).contains m.id)) ∧
    ((load_shared_messages (StoreContent.bare shared) pm).map Msg.id).count X
        = 1 := by
  have h1 : load_shared_messages (StoreContent.bare shared) pm
      = pm ++ shared.filter
          (fun m => !((pm.map (fun x => x.id)).contains m.id)) := by
    simp only [load_shared_messages]
    exact capLast100_of_length_le hlen
  refine ⟨h1, ?_⟩
  rw [h1, List.map_append, List.count_append]
  have hXmem : X ∈ pm.map Msg.id := by
    by_contra hX
    rw [List.count_eq_zero.2 hX] at hlocal
    exact absurd hlocal (by simp)
  have hzero : ((shared.filter
      (fun m => !((pm.map (fun x => x.id)).contains m.id))).map Msg.id).count X
      = 0 := by
    rw [List.count_eq_zero]
    intro hmem
    rcases List.mem_map.1 hmem with ⟨m, hmF, hid⟩
    rw [List.mem_filter] at hmF
    have hfalse : (pm.map (fun x => x.id)).contains m.id = false := by
      have hb := hmF.2
      revert hb
      cases (pm.map (fun x => x.id)).contains m.id <;> simp
    have hmem_pm : m.id ∈ pm.map (fun x => x.id) := by
      rw [show m.id = X from hid]
      exact hXmem
    have htrue : (pm.map (fun x => x.id)).contains m.id = true := by
      simpa [List.contains] using hmem_pm
    rw [htrue] at hfalse
    exact absurd hfalse (by simp)
  rw [hzero, hlocal]

/-- C5 witness: a concrete in-cap instance — local `[id 5]`, store
`[id 5, id 7]` — where the merged view contains exactly one id-5 record. -/
theorem C5_dedup_merge_witness :
    ((load_shared_messages (StoreContent.bare [idMsg 5, idMsg 7])
        [idMsg 5]).map Msg.id).count 5 = 1 :=
  (C5_dedup_merge [idMsg 5, idMsg 7] [idMsg 5] 5 (by decide) (by decide)
    (by decide)).2

/-- C6: if the shared-store write fails during `add_message` or
`simulate_outgoing_message`, the new record is still present in the
process-local view and the store is unchanged (the failure is swallowed
inside the save routine, so no exception reaches the request handler), and
the request handlers still report success to the caller. -/
theorem C6_degraded_write (s : SMSHandlerState) (store : StoreContent)
    (d : SmsData) (dest text ts : String)
    (submit ud da pid dcs : String) (qp : List (String × List String))
    (now : String)
    (hpop : ¬(submit = "" ∧ ud = "" ∧ da = "" ∧ pid = "" ∧ dcs = "")) :
    ((add_message false s store d).2.2 ∈
        (add_message false s store d).1.processed_messages) ∧
    (add_message false s store d).2.1 = store ∧
    ((simulate_outgoing_message false s store dest text ts).2.2 ∈
        (simulate_outgoing_message false s store dest text ts).1.processed_messages) ∧
    (simulate_outgoing_message false s store dest text ts).2.1 = store ∧
    (handle_simulate_outgoing_request false s store dest text ts).1
        = HandlerOutcome.success ∧
    (handle_sms_request_port80 false s store submit ud da pid dcs qp now).1
        = HandlerOutcome.success ∧
    (handle_sms_request_port80 false s store submit ud da pid dcs qp now).2.2
        = store := by
  refine ⟨?_, ?_, ?_, ?_, rfl, ?_, ?_⟩
  · simp only [add_message]
    exact self_mem_popFrontIfOver100_append _ _
  · simp only [add_message]
    exact save_message_to_shared_file_false store _
  · simp only [simulate_outgoing_message]
    exact self_mem_popFrontIfOver100_append _ _
  · simp only [simulate_outgoing_message]
    exact save_message_to_shared_file_false store _
  · simp [handle_sms_request_port80, hpop, add_message]
  · simp [handle_sms_request_port80, hpop, add_message,
      save_message_to_shared_file_false]

/-- C6 witness: concrete instance — a port-80 submission with a populated
`submit` field, against an unwritable store, still answers success and
leaves the store unchanged. -/
theorem C6_degraded_write_witness :
    (handle_sms_request_port80 false initState (StoreContent.bare [])
        "AB" "" "" "" "" [] "t0").1 = HandlerOutcome.success :=
  (C6_degraded_write initState (StoreContent.bare []) sampleSmsData
    "+5511999999999" "hi" "t0" "AB" "" "" "" "" [] "t0"
    (by decide)).2.2.2.2.2.1

/-- C7: the port-80 ingestion path answers 400 iff all five recognized
fields (`submit`-derived raw hex, user-data, destination address,
protocol-identifier, data-coding-scheme) are empty, in which case no record
is created or stored; if at least one field is populated it answers success
and appends the normalized record.  The plain SMS route recognizes only
`submit`: it answers 400 iff `submit` is empty (storing nothing), and
otherwise stores a record and answers success. -/
theorem C7_validation (s : SMSHandlerState) (store : StoreContent)
    (submit ud da pid dcs : String) (qp : List (String × List String))
    (now msisdn ts : String) :
    ((handle_sms_request_port80 true s store submit ud da pid dcs qp now).1
        = HandlerOutcome.error 400
      ↔ (submit = "" ∧ ud = "" ∧ da = "" ∧ pid = "" ∧ dcs = "")) ∧
    ((submit = "" ∧ ud = "" ∧ da = "" ∧ pid = "" ∧ dcs = "") →
      handle_sms_request_port80 true s store submit ud da pid dcs qp now
        = (HandlerOutcome.error 400, s, store)) ∧
    (¬(submit = "" ∧ ud = "" ∧ da = "" ∧ pid = "" ∧ dcs = "") →
      (handle_sms_request_port80 true s store submit ud da pid dcs qp now).1
          = HandlerOutcome.success ∧
      (handle_sms_request_port80 true s store
          submit ud da pid dcs qp now).2.1.processed_messages
          = popFrontIfOver100 (s.processed_messages ++
              [{ id := s.message_counter + 1, timestamp := now,
                 status := "success", source := "port_80_simulation",
                 format := "sms_submit_variables", raw_data := submit,
                 user_data := ud, destination_address := da,
                 protocol_identifier := pid, data_coding_scheme := dcs,
                 query_params := qp, direction := "received" }])) ∧
    ((handle_sms_request s submit msisdn ts).1 = HandlerOutcome.error 400
      ↔ submit = "") ∧
    (submit = "" →
      handle_sms_request s submit msisdn ts = (HandlerOutcome.error 400, s)) ∧
    (submit ≠ "" →
      (handle_sms_request s submit msisdn ts).1 = HandlerOutcome.success ∧
      (handle_sms_request s submit msisdn ts).2.processed_messages
        = popFrontIfOver100 (s.processed_messages ++
            [{ id := s.message_counter + 1, msisdn := msisdn, timestamp := ts,
               status := if ("00" : String) = "00" then "success"
                 else "failed",
               apdu_hex := submit, direction := "received" }])) := by
  refine ⟨?_, ?_, ?_, ?_, ?_, ?_⟩
  · by_cases hc : (submit = "" ∧ ud = "" ∧ da = "" ∧ pid = "" ∧ dcs = "")
    · simp [handle_sms_request_port80, hc]
    · simp [handle_sms_request_port80, hc, add_message]
  · intro hc
    simp [handle_sms_request_port80, hc]
  · intro hc
    constructor
    · simp [handle_sms_request_port80, hc, add_message]
    · simp [handle_sms_request_port80, hc, add_message]
  · by_cases hc : submit = ""
    · simp [handle_sms_request, hc]
    · simp [handle_sms_request, hc, process_sms]
  · intro hc
    simp [handle_sms_request, hc]
  · intro hc
    constructor
    · simp [handle_sms_request, hc, process_sms]
    · simp [handle_sms_request, hc, process_sms]

/-- C7 witness: with all five fields empty the port-80 path answers 400,
obtained from the validation theorem at a concrete input. -/
theorem C7_validation_witness :
    (handle_sms_request_port80 true initState StoreContent.absent
        "" "" "" "" "" [] "t0").1 = HandlerOutcome.error 400 :=
  (C7_validation initState StoreContent.absent "" "" "" "" "" [] "t0" ""
    "t0").1.2 ⟨rfl, rfl, rfl, rfl, rfl⟩

/-- C8 (counterexample): clear is **not** an atomic destruction of the
whole ledger.  Ingest one record (persisted to the shared store), clear,
then read the message list: the read first reconciles against the shared
store — which the clear never touched — so the supposedly destroyed record
reappears and the returned list has length 1, while the counters are 0. -/
theorem C8_counterexample :
    (handle_messages_request
        (clear_messages
          (add_message true initState StoreContent.absent sampleSmsData).1)
        (add_message true initState StoreContent.absent
          sampleSmsData).2.1).1.length = 1 ∧
    (get_statistics
        (clear_messages
          (add_message true initState StoreContent.absent
            sampleSmsData).1)).total_messages = 0 :=
  ⟨rfl, rfl⟩

/-- C8 (amended): `clear_messages` idempotently empties the process-local
view and resets all counters to zero (and the clear endpoint acknowledges
success), but it does not clear the shared store: a later reconcile
re-imports every record of a bare-layout store (capped at 100), so
persisted records reappear. -/
theorem C8_clear_local_only (s : SMSHandlerState) (shared : List Msg) :
    (clear_messages s).processed_messages = [] ∧
    get_statistics (clear_messages s)
        = { total_messages := 0, successful_messages := 0,
            failed_messages := 0, last_processed := none } ∧
    clear_messages (clear_messages s) = clear_messages s ∧
    handle_clear_messages s = (HandlerOutcome.success, clear_messages s) ∧
    load_shared_messages (StoreContent.bare shared)
        (clear_messages s).processed_messages = capLast100 shared := by
  refine ⟨rfl, rfl, rfl, rfl, ?_⟩
  simp [clear_messages, load_shared_messages, List.contains]

/-- C9 (counterexample): the shared-store rewrite is performed neither by
writing to a temporary location and renaming nor under a lock: from an
absent store, each save routine's I/O trace is exactly a direct in-place
write of `shared_messages.json`. -/
theorem C9_counterexample :
    ¬ atomicOrGuarded (smsc_save_trace StoreContent.absent) shared_file ∧
    ¬ atomicOrGuarded (http80_save_trace StoreContent.absent) shared_file := by
  constructor <;>
    simp [atomicOrGuarded, smsc_save_trace, http80_save_trace, isWriteTemp,
      isRenameFile, isLockAcquire, isWriteInPlaceTo]

/-- C9 (amended): for every store content, the rewrite paths of both files
perform no temp-file write, no rename and no lock operation; whatever they
write is written directly in place at the shared path, so the
write-temp-then-rename / mutual-exclusion discipline the claim describes is
absent from both write-back paths. -/
theorem C9_no_atomic_rename (store : StoreContent) :
    (smsc_save_trace store).any isWriteTemp = false ∧
    (smsc_save_trace store).any isRenameFile = false ∧
    (smsc_save_trace store).any isLockAcquire = false ∧
    (http80_save_trace store).any isWriteTemp = false ∧
    (http80_save_trace store).any isRenameFile = false ∧
    (http80_save_trace store).any isLockAcquire = false ∧
    ¬ atomicOrGuarded (smsc_save_trace store) shared_file ∧
    ¬ atomicOrGuarded (http80_save_trace store) shared_file := by
  cases store <;> refine ⟨rfl, rfl, rfl, rfl, rfl, rfl, ?_, ?_⟩ <;>
    simp [atomicOrGuarded, smsc_save_trace, http80_save_trace, isWriteTemp,
      isRenameFile, isLockAcquire, isWriteInPlaceTo]

/-- C10 (implicit): after every sequence of ingestion-only operations
(`process_sms`, `add_message`, `simulate_outgoing_message`, clears/resets)
from a fresh handler, the failed-messages counter is 0 and every record in
the local view has status `success`: the hardcoded response code `'00'`
makes the failed branch unreachable. -/
theorem C10_failed_branch_unreachable (store : StoreContent)
    (ops : List LocalOp) :
    (runLocal (initState, store) ops).1.failed_messages = 0 ∧
    (get_statistics (runLocal (initState, store) ops).1).failed_messages = 0 ∧
    ∀ m ∈ (runLocal (initState, store) ops).1.processed_messages,
      m.status = "success" := by
  have h := runLocal_success_invariant ops (initState, store) rfl (by simp [initState])
  exact ⟨h.1, by simpa [get_statistics] using h.1, h.2⟩

end SMSC
